import Mathlib

/-!
Shallow embedding of the Intcode virtual machine (`src/mysolution/machine.py`)
and of the day-23 switch fabric (`src/mysolution/day23_category_six/solve.py`)
from the `aoc2019` repository, together with theorems settling the
specification claims about them.

Conventions of the embedding:
* Python integers become `Int`; Python `//` and `%` on a positive divisor are
  `Int.ediv` and `Int.emod` (both agree with Python floor semantics there).
* The machine's sparse `collections.defaultdict(int)` memory becomes a total
  function `Int → Int` defaulting to `0`; a write is a pointwise update.
* Exceptions become explicit outcome constructors: `MachineTerminated` and
  `ResourceUnavailable` (which `run_until_terminate` catches) and the
  `RuntimeError`s (which propagate to the caller) are separate constructors of
  the step/run result types.
* `sigterm` (a `threading.Event` set by another thread) is modelled as a
  schedule `Nat → Bool` giving the value `sigterm.is_set()` returns at each
  iteration of the run loop; within one iteration the same value is also the
  sentinel passed to a port operation.
* Real time (`polling_interval`, `sleep`, condition-variable waits) is
  abstracted away; a `QueuePort` read that would wait forever in a closed
  world (empty queue, `retries=None`, sentinel never set) is the distinguished
  outcome `blocked`.
-/

namespace Aoc2019

/-- Intcode instruction parameter (`machine.py`, class `Parameter`):
a raw word together with its addressing mode. -/
structure Parameter where
  number : Int
  mode : Int
deriving DecidableEq, Repr

/-- The `RuntimeError`s `machine.py` can raise, by their messages:
"input port is not plugged", "output port is not plugged",
`invalid mode` (store through an immediate parameter), `unknown mode`,
and the `AttributeError` raised by the dynamic dispatch on an opcode with no
`execute_XX` method. -/
inductive MachError where
  | inputNotPlugged
  | outputNotPlugged
  | invalidMode (mode : Int)
  | unknownMode (mode : Int)
  | unknownOpcode (op : Int)
deriving DecidableEq, Repr

/-- State of `machine.py`'s `QueuePort` as far as a single machine's
sequential run can observe it: the FIFO contents, the `retries` bound
(`none` mirrors Python `None`, i.e. retry forever) and the `starving` flag. -/
structure QueuePort where
  queue : List Int
  retries : Option Nat
  starving : Bool
deriving DecidableEq, Repr

/-- Result of `QueuePort.read_int`: a value (with the updated port),
`ResourceUnavailable`, or blocking forever (closed world: empty queue,
unbounded retries, sentinel never true). -/
inductive ReadOutcome where
  | value (v : Int) (p : QueuePort)
  | unavailable (p : QueuePort)
  | blocked (p : QueuePort)
deriving DecidableEq, Repr

/-- `QueuePort.read_int` (machine.py lines 286-298), sequentialized: with no
concurrent producer the queue never refills, so the retry loop either pops on
the first test, raises `ResourceUnavailable` (sentinel set, or the finite
retry bound exhausted), or waits forever (`retries=None`, sentinel unset).
Every empty-queue iteration sets `starving` first. -/
def QueuePort.readInt (sentinel : Bool) (p : QueuePort) : ReadOutcome :=
  match p.queue with
  | v :: rest => .value v { p with queue := rest }
  | [] =>
    if sentinel then .unavailable { p with starving := true }
    else
      match p.retries with
      | none => .blocked { p with starving := true }
      | some _ => .unavailable { p with starving := true }

/-- `QueuePort.write_int`: append the value and clear `starving`.
It never fails and never blocks. -/
def QueuePort.writeInt (v : Int) (p : QueuePort) : QueuePort :=
  { p with queue := p.queue ++ [v], starving := false }

/-- State of `machine.py`'s `Machine`.  The ports are specialized to the
canonical threaded port (`QueuePort`); `none` models an unplugged port
(the dataclass default `input_port: InputPort = None`). -/
structure Machine where
  memory : Int → Int
  pc : Int
  relativeBase : Int
  inputPort : Option QueuePort
  outputPort : Option QueuePort
  inputTape : List Int
  outputTape : List Int

/-- `Machine.__post_init__`: memory is a `defaultdict(int)` seeded with the
instruction image at addresses `0..N-1`; every other address reads `0`. -/
def Machine.new (instructions : List Int) (inp outp : Option QueuePort) : Machine :=
  { memory := fun a => if 0 ≤ a then instructions.getD a.toNat 0 else 0
    pc := 0
    relativeBase := 0
    inputPort := inp
    outputPort := outp
    inputTape := []
    outputTape := [] }

/-- Write one memory cell (mutation of the `defaultdict`). -/
def Machine.memWrite (s : Machine) (addr v : Int) : Machine :=
  { s with memory := fun a => if a = addr then v else s.memory a }

/-- `Machine.load_value` (machine.py lines 170-178). -/
def Machine.loadValue (s : Machine) (p : Parameter) : Except MachError Int :=
  if p.mode = 0 then .ok (s.memory p.number)
  else if p.mode = 1 then .ok p.number
  else if p.mode = 2 then .ok (s.memory (p.number + s.relativeBase))
  else .error (.unknownMode p.mode)

/-- `Machine.store_value` (machine.py lines 180-188).  Note: no address-range
check of any kind is performed in the source; the raised errors concern only
the parameter mode. -/
def Machine.storeValue (s : Machine) (p : Parameter) (v : Int) :
    Except MachError Machine :=
  if p.mode = 0 then .ok (s.memWrite p.number v)
  else if p.mode = 1 then .error (.invalidMode p.mode)
  else if p.mode = 2 then .ok (s.memWrite (p.number + s.relativeBase) v)
  else .error (.unknownMode p.mode)

/-- `Machine._extract_modes`: the mode of parameter `pos` (0-based) is the
decimal digit of `instr // 100` at position `pos`.  Python floor `//` and
`%` with positive divisors are `Int.ediv` / `Int.emod`. -/
def paramMode (instr : Int) (pos : Nat) : Int :=
  ((instr.ediv 100).ediv ((10 : Int) ^ pos)).emod 10

/-- The `pos`-th parameter prepared by `Machine.execute_next`:
raw word `memory[pc + 1 + pos]` paired with its extracted mode. -/
def Machine.param (s : Machine) (pos : Nat) : Parameter :=
  ⟨s.memory (s.pc + 1 + (pos : Int)), paramMode (s.memory s.pc) pos⟩

/-- The opcode of the current instruction: `memory[pc] % 100`
(Python `%`, i.e. `Int.emod`). -/
def Machine.opcode (s : Machine) : Int :=
  (s.memory s.pc).emod 100

/-- Outcome of executing a single instruction.  `terminated` is the
`MachineTerminated` exception, `unavailable` the `ResourceUnavailable`
exception, `blocked` an input read that waits forever, and `fail` a
propagating `RuntimeError`/`AttributeError`.  Each constructor carries the
machine state including every mutation made before the exception was
raised. -/
inductive StepOutcome where
  | next (s : Machine)
  | terminated (s : Machine)
  | unavailable (s : Machine)
  | blocked (s : Machine)
  | fail (e : MachError) (s : Machine)

/-- Common body of `execute_01`, `execute_02`, `execute_07`, `execute_08`:
load both operands, store `f fst snd` at the third parameter, advance `pc`
by 4. -/
def Machine.executeBinOp (s : Machine) (f : Int → Int → Int) : StepOutcome :=
  match s.loadValue (s.param 0) with
  | .error e => .fail e s
  | .ok fstValue =>
    match s.loadValue (s.param 1) with
    | .error e => .fail e s
    | .ok sndValue =>
      match s.storeValue (s.param 2) (f fstValue sndValue) with
      | .error e => .fail e s
      | .ok s₁ => .next { s₁ with pc := s₁.pc + 4 }

/-- `Machine.execute_01` (ADD). -/
def Machine.execute01 (s : Machine) : StepOutcome :=
  s.executeBinOp (fun a b => a + b)

/-- `Machine.execute_02` (MULTIPLY). -/
def Machine.execute02 (s : Machine) : StepOutcome :=
  s.executeBinOp (fun a b => a * b)

/-- `Machine.execute_03` (INPUT): fails if no input port is plugged; reads
from the port with `sigterm.is_set` as sentinel; stores the value; records it
on the input tape; advances `pc` by 2.  Mutation order follows the source:
the port is popped before the store, so a failing store keeps the popped
port state. -/
def Machine.execute03 (sigterm : Bool) (s : Machine) : StepOutcome :=
  match s.inputPort with
  | none => .fail .inputNotPlugged s
  | some port =>
    match port.readInt sigterm with
    | .unavailable port₁ => .unavailable { s with inputPort := some port₁ }
    | .blocked port₁ => .blocked { s with inputPort := some port₁ }
    | .value v port₁ =>
      let s₁ := { s with inputPort := some port₁ }
      match s₁.storeValue (s₁.param 0) v with
      | .error e => .fail e s₁
      | .ok s₂ => .next { s₂ with inputTape := s₂.inputTape ++ [v], pc := s₂.pc + 2 }

/-- `Machine.execute_04` (OUTPUT): fails if no output port is plugged; loads
the source value; writes it to the port (a `QueuePort` write never fails);
records it on the output tape; advances `pc` by 2. -/
def Machine.execute04 (s : Machine) : StepOutcome :=
  match s.outputPort with
  | none => .fail .outputNotPlugged s
  | some port =>
    match s.loadValue (s.param 0) with
    | .error e => .fail e s
    | .ok v =>
      let s₁ := { s with outputPort := some (port.writeInt v) }
      .next { s₁ with outputTape := s₁.outputTape ++ [v], pc := s₁.pc + 2 }

/-- `Machine.execute_05` (JUMP_IF_TRUE). -/
def Machine.execute05 (s : Machine) : StepOutcome :=
  match s.loadValue (s.param 0) with
  | .error e => .fail e s
  | .ok condValue =>
    match s.loadValue (s.param 1) with
    | .error e => .fail e s
    | .ok posValue =>
      .next { s with pc := if condValue ≠ 0 then posValue else s.pc + 3 }

/-- `Machine.execute_06` (JUMP_IF_FALSE). -/
def Machine.execute06 (s : Machine) : StepOutcome :=
  match s.loadValue (s.param 0) with
  | .error e => .fail e s
  | .ok condValue =>
    match s.loadValue (s.param 1) with
    | .error e => .fail e s
    | .ok posValue =>
      .next { s with pc := if condValue = 0 then posValue else s.pc + 3 }

/-- `Machine.execute_07` (LESS THAN). -/
def Machine.execute07 (s : Machine) : StepOutcome :=
  s.executeBinOp (fun a b => if a < b then 1 else 0)

/-- `Machine.execute_08` (EQUALS). -/
def Machine.execute08 (s : Machine) : StepOutcome :=
  s.executeBinOp (fun a b => if a = b then 1 else 0)

/-- `Machine.execute_09` (ADJUST RELATIVE BASE). -/
def Machine.execute09 (s : Machine) : StepOutcome :=
  match s.loadValue (s.param 0) with
  | .error e => .fail e s
  | .ok adjustValue =>
    .next { s with relativeBase := s.relativeBase + adjustValue, pc := s.pc + 2 }

/-- `Machine.execute_99` (TERMINATE): raises `MachineTerminated` before any
mutation, so the carried state is unchanged. -/
def Machine.execute99 (s : Machine) : StepOutcome :=
  .terminated s

/-- `Machine.execute_next`: dynamic dispatch on `memory[pc] % 100`.
A value with no matching `execute_XX` method raises `AttributeError`
(modelled `unknownOpcode`).  Only opcode 3 receives the sigterm sentinel
(opcode 4 passes it to `write_int` too, but a `QueuePort` write ignores
it and cannot fail). -/
def Machine.executeNext (sigterm : Bool) (s : Machine) : StepOutcome :=
  if s.opcode = 1 then s.execute01
  else if s.opcode = 2 then s.execute02
  else if s.opcode = 3 then s.execute03 sigterm
  else if s.opcode = 4 then s.execute04
  else if s.opcode = 5 then s.execute05
  else if s.opcode = 6 then s.execute06
  else if s.opcode = 7 then s.execute07
  else if s.opcode = 8 then s.execute08
  else if s.opcode = 9 then s.execute09
  else if s.opcode = 99 then s.execute99
  else .fail (.unknownOpcode s.opcode) s

/-- Result of `Machine.run_until_terminate`.  The Python method returns
`None` in every non-raising case: `done` covers the `sigterm` loop exit and
the caught `MachineTerminated` and `ResourceUnavailable` exceptions alike;
`failed` is a propagating `RuntimeError`; `blocked` an input wait that never
returns; `outOfFuel` means the step budget of this fueled model ran out. -/
inductive RunResult where
  | done (s : Machine)
  | failed (e : MachError) (s : Machine)
  | blocked (s : Machine)
  | outOfFuel (s : Machine)

/-- `Machine.run_until_terminate` (machine.py lines 51-56): before every
instruction the loop consults `sigterm.is_set()` (the schedule at the current
iteration index) and exits if set; `MachineTerminated` and
`ResourceUnavailable` break the loop (normal return); other exceptions
propagate. -/
def Machine.runUntilTerminate (sched : Nat → Bool) :
    Nat → Nat → Machine → RunResult
  | 0, _, s => .outOfFuel s
  | fuel + 1, i, s =>
    if sched i then .done s
    else
      match s.executeNext (sched i) with
      | .next s₁ => Machine.runUntilTerminate sched fuel (i + 1) s₁
      | .terminated s₁ => .done s₁
      | .unavailable s₁ => .done s₁
      | .blocked s₁ => .blocked s₁
      | .fail e s₁ => .failed e s₁

/-- The machine state carried by a run result. -/
def RunResult.state : RunResult → Machine
  | .done s => s
  | .failed _ s => s
  | .blocked s => s
  | .outOfFuel s => s

/-- Whether `run_until_terminate` returned normally (no exception escaped). -/
def RunResult.isDone : RunResult → Bool
  | .done _ => true
  | _ => false

/-- A sigterm schedule that is never set. -/
def schedNever : Nat → Bool := fun _ => false

/-- A sigterm schedule that is set from the start. -/
def schedAlways : Nat → Bool := fun _ => true

/-!
Day-23 switch fabric (`src/mysolution/day23_category_six/solve.py`).
The NAT worker and the bridge port operations are embedded as pure
state transformers on the switch state; `threading` waits, sleeps and mutex
acquisitions are sequentialized away, and a `KeyError` from `self.bridges[addr]`
becomes `Option.none`.
-/

/-- `geometry.Vec` restricted to the two components the switch uses. -/
structure Vec where
  x : Int
  y : Int
deriving DecidableEq, Repr

/-- State of a `BridgeAdapter`: machine address, input FIFO, the 3-word
output framing buffer, and the starving flag. -/
structure BridgeAdapter where
  addr : Int
  inQueue : List Int
  outBuffer : List Int
  inStarving : Bool
deriving DecidableEq, Repr

/-- `BridgeAdapter.__post_init__`: the input FIFO is seeded with the
machine's own address. -/
def BridgeAdapter.new (addr : Int) : BridgeAdapter :=
  { addr := addr, inQueue := [addr], outBuffer := [], inStarving := false }

/-- `BridgeAdapter.read_int` (solve.py lines 171-176): pop the front word if
the FIFO is non-empty; else set the starving flag, sleep for the polling
interval (abstracted away), and return `-1`.  The return type is total:
this read has no failure outcome. -/
def BridgeAdapter.readInt (b : BridgeAdapter) : Int × BridgeAdapter :=
  match b.inQueue with
  | v :: rest => (v, { b with inQueue := rest })
  | [] => (-1, { b with inStarving := true })

/-- State of the `CentralSwitch`: NAT address, the address→bridge mapping
(an association list standing for the Python dict), and the NAT bookkeeping
fields. -/
structure CentralSwitch where
  natAddr : Int
  bridges : List (Int × BridgeAdapter)
  natFirstReceived : Bool
  natReceivedMsgs : List Vec
  natSentMsgs : List Vec
deriving DecidableEq, Repr

/-- Association-list lookup standing for Python dict access by key. -/
def lookupAddr : Int → List (Int × BridgeAdapter) → Option BridgeAdapter
  | _, [] => none
  | a, (k, b) :: t => if a = k then some b else lookupAddr a t

/-- Dict access `self.bridges[addr]` (first binding of the key). -/
def CentralSwitch.lookupBridge (sw : CentralSwitch) (addr : Int) :
    Option BridgeAdapter :=
  lookupAddr addr sw.bridges

/-- Apply `f` to the value bound to key `a`, leaving other bindings alone. -/
def updatePairs (a : Int) (f : BridgeAdapter → BridgeAdapter) :
    List (Int × BridgeAdapter) → List (Int × BridgeAdapter)
  | [] => []
  | (k, b) :: t => (if k = a then (k, f b) else (k, b)) :: updatePairs a f t

/-- In-place mutation of the bridge stored at `addr`. -/
def CentralSwitch.updateBridge (sw : CentralSwitch) (addr : Int)
    (f : BridgeAdapter → BridgeAdapter) : CentralSwitch :=
  { sw with bridges := updatePairs addr f sw.bridges }

/-- `CentralSwitch.deliver_to_machine` (solve.py lines 110-118): append `x`
then `y` to the destination bridge's input FIFO and clear its starving flag
(the mutex acquisition is sequentialized away).  `none` is the `KeyError`
raised when no bridge exists at `addr`. -/
def CentralSwitch.deliverToMachine (sw : CentralSwitch) (addr x y : Int) :
    Option CentralSwitch :=
  match sw.lookupBridge addr with
  | none => none
  | some _ => some (sw.updateBridge addr fun b =>
      { b with inQueue := b.inQueue ++ [x, y], inStarving := false })

/-- `CentralSwitch.dispatch_buffer` (solve.py lines 97-108): unpack the
buffer as `(recv_addr, x, y)`; a message to the NAT address goes to the NAT
inbox (setting `nat_first_received`), anything else is delivered to the
destination machine.  `none` covers the unpack error on a buffer whose
length is not 3 and the `KeyError` on an unknown destination. -/
def CentralSwitch.dispatchBuffer (sw : CentralSwitch) (_sendAddr : Int)
    (buffer : List Int) : Option CentralSwitch :=
  match buffer with
  | [recvAddr, x, y] =>
    if recvAddr = sw.natAddr then
      some { sw with natReceivedMsgs := sw.natReceivedMsgs ++ [⟨x, y⟩],
                     natFirstReceived := true }
    else
      sw.deliverToMachine recvAddr x y
  | _ => none

/-- `BridgeAdapter.write_int` (solve.py lines 178-182) for the bridge bound
to `addr`: append the value to that bridge's framing buffer; when the buffer
reaches exactly three words, dispatch it and then reset the buffer to empty.
Mutation order follows the source (append, dispatch, clear). -/
def CentralSwitch.bridgeWriteInt (sw : CentralSwitch) (addr v : Int) :
    Option CentralSwitch :=
  match sw.lookupBridge addr with
  | none => none
  | some b =>
    let newBuffer := b.outBuffer ++ [v]
    let sw₁ := sw.updateBridge addr fun x => { x with outBuffer := newBuffer }
    if newBuffer.length = 3 then
      (sw₁.dispatchBuffer addr newBuffer).map fun sw₂ =>
        sw₂.updateBridge addr fun x => { x with outBuffer := [] }
    else
      some sw₁

/-- `CentralSwitch.network_idle` (solve.py lines 137-144): the network is
considered idle exactly when every bridge's starving flag is set.  (The
mutex acquisition is sequentialized away; note the input FIFOs are not
inspected.) -/
def CentralSwitch.networkIdle (sw : CentralSwitch) : Bool :=
  sw.bridges.all fun p => p.2.inStarving

/-- Outcome of one iteration of the NAT worker loop
(`nat_run_until_send_repeated`): still waiting for idleness, terminated on a
repeated `y`, sent a packet to address 0, or raised (`IndexError` on an empty
NAT inbox / `KeyError` on a missing bridge 0). -/
inductive NatOutcome where
  | waiting (sw : CentralSwitch)
  | repeatFound (sw : CentralSwitch)
  | sent (sw : CentralSwitch)
  | natError (sw : CentralSwitch)
deriving DecidableEq, Repr

/-- The send half of the NAT loop body: record the packet in
`nat_sent_msgs`, then deliver it to address 0 (mutation order follows the
source). -/
def CentralSwitch.natSend (sw : CentralSwitch) (recent : Vec) : NatOutcome :=
  let sw₁ := { sw with natSentMsgs := sw.natSentMsgs ++ [recent] }
  match sw₁.deliverToMachine 0 recent.x recent.y with
  | some sw₂ => .sent sw₂
  | none => .natError sw₁

/-- One iteration of `nat_run_until_send_repeated` (solve.py lines 120-135):
if the network is not idle, keep waiting; otherwise take the most recent NAT
message and, when its `y` equals the `y` of the last packet the NAT sent,
return (before any send); else send it to address 0. -/
def CentralSwitch.natStep (sw : CentralSwitch) : NatOutcome :=
  if sw.networkIdle then
    match sw.natReceivedMsgs.getLast? with
    | none => .natError sw
    | some recent =>
      match sw.natSentMsgs.getLast? with
      | some lastSent =>
        if lastSent.y = recent.y then .repeatFound sw
        else sw.natSend recent
      | none => sw.natSend recent
  else
    .waiting sw

/-!
Helper lemmas: which step outcomes each executor can produce.
`blocked` and `unavailable` arise only from the input instruction
(opcode 3); no other executor inspects the sigterm sentinel.
-/

theorem executeBinOp_not_blocking (s : Machine) (f : Int → Int → Int) (s₁ : Machine) :
    s.executeBinOp f ≠ .blocked s₁ ∧ s.executeBinOp f ≠ .unavailable s₁ := by
  refine ⟨?_, ?_⟩ <;>
  · unfold Machine.executeBinOp
    repeat' split
    all_goals simp

theorem execute04_not_blocking (s : Machine) (s₁ : Machine) :
    s.execute04 ≠ .blocked s₁ ∧ s.execute04 ≠ .unavailable s₁ := by
  refine ⟨?_, ?_⟩ <;>
  · unfold Machine.execute04
    repeat' split
    all_goals simp

theorem execute05_not_blocking (s : Machine) (s₁ : Machine) :
    s.execute05 ≠ .blocked s₁ ∧ s.execute05 ≠ .unavailable s₁ := by
  refine ⟨?_, ?_⟩ <;>
  · unfold Machine.execute05
    repeat' split
    all_goals simp

theorem execute06_not_blocking (s : Machine) (s₁ : Machine) :
    s.execute06 ≠ .blocked s₁ ∧ s.execute06 ≠ .unavailable s₁ := by
  refine ⟨?_, ?_⟩ <;>
  · unfold Machine.execute06
    repeat' split
    all_goals simp

theorem execute09_not_blocking (s : Machine) (s₁ : Machine) :
    s.execute09 ≠ .blocked s₁ ∧ s.execute09 ≠ .unavailable s₁ := by
  refine ⟨?_, ?_⟩ <;>
  · unfold Machine.execute09
    repeat' split
    all_goals simp

/-!
### C1 — negative addresses

The spec claims reads/writes whose resolved address is negative fail with
`InvalidAddress`.  The source has no such check: memory is a
`defaultdict(int)`, so any integer address — negative included — reads its
stored value (default 0) and accepts writes, and the run proceeds normally.
-/

/-- Program whose third instruction parameter stores `2 + 3` at address
`-1` in position mode, then halts. -/
def c1WriteMachine : Machine := Machine.new [1101, 2, 3, -1, 99] none none

/-- Program that sets the relative base to `-7` and then outputs
`memory[-7]` through a relative-mode read. -/
def c1ReadMachine : Machine :=
  Machine.new [109, -7, 204, 0, 99] none (some ⟨[], none, false⟩)

/-- C1 is false on the code: a program that writes to address `-1`
(position mode) runs to normal termination with `memory[-1] = 5`, and a
program that reads address `-7` (relative mode, base `-7`) runs to normal
termination outputting the default value `0`.  No `InvalidAddress` failure
exists and the runs do not abort. -/
theorem C1_counterexample :
    (Machine.runUntilTerminate schedNever 10 0 c1WriteMachine).isDone = true ∧
    (Machine.runUntilTerminate schedNever 10 0 c1WriteMachine).state.memory (-1) = 5 ∧
    (Machine.runUntilTerminate schedNever 10 0 c1ReadMachine).isDone = true ∧
    (Machine.runUntilTerminate schedNever 10 0 c1ReadMachine).state.outputTape = [0] :=
  ⟨rfl, by decide, rfl, by decide⟩

/-- C1 (amended): a read or write whose resolved address is negative
succeeds: position mode resolves to the raw word and relative mode to
`relative_base + raw word`, and both load from and store to the total
(`defaultdict`) memory at that address, with the store visible at the
negative address afterwards.  No address-validity error exists. -/
theorem C1_amended_thm (s : Machine) (a v : Int) (_ha : a < 0) :
    s.loadValue ⟨a, 0⟩ = .ok (s.memory a) ∧
    s.storeValue ⟨a, 0⟩ v = .ok (s.memWrite a v) ∧
    (∀ n, n + s.relativeBase = a →
      s.loadValue ⟨n, 2⟩ = .ok (s.memory a) ∧
      s.storeValue ⟨n, 2⟩ v = .ok (s.memWrite a v)) ∧
    (s.memWrite a v).memory a = v := by
  refine ⟨by simp [Machine.loadValue], by simp [Machine.storeValue], ?_, ?_⟩
  · intro n hn
    constructor <;> simp [Machine.loadValue, Machine.storeValue, hn]
  · simp [Machine.memWrite]

/-- Witness for `C1_amended_thm` at the concrete machine `c1WriteMachine`,
address `-1`, value `42`. -/
theorem C1_amended_witness :
    c1WriteMachine.loadValue ⟨-1, 0⟩ = .ok (c1WriteMachine.memory (-1)) ∧
    c1WriteMachine.storeValue ⟨-1, 0⟩ 42 = .ok (c1WriteMachine.memWrite (-1) 42) ∧
    (c1WriteMachine.memWrite (-1) 42).memory (-1) = 42 := by
  have h := C1_amended_thm c1WriteMachine (-1) 42 (by decide)
  exact ⟨h.1, h.2.1, h.2.2.2⟩

/-!
### C2 — cancellation consultation

The spec claims a program with no opcode 3/4 runs to completion without the
run loop ever consulting the sigterm token.  But `run_until_terminate` is
`while not self.sigterm.is_set(): ...` — it consults the token before every
instruction, whatever the opcode, and exits immediately when it is set.
-/

/-- `[1, 0, 0, 0, 99]`: one add, then halt; contains no opcode 3 or 4. -/
def c2Machine : Machine := Machine.new [1, 0, 0, 0, 99] none none

/-- C2 is false on the code: on a program with no opcode 3/4, running with
the sigterm token set returns at once with nothing executed (`memory[0]`
still 1, `pc` still 0), while the same program with the token clear runs to
completion (`memory[0] = 2`, `pc = 4`).  The run outcome depends on the
token, so the loop does consult it, and with the token set the program does
not run to completion. -/
theorem C2_counterexample :
    Machine.runUntilTerminate schedAlways 10 0 c2Machine = .done c2Machine ∧
    (Machine.runUntilTerminate schedAlways 10 0 c2Machine).state.memory 0 = 1 ∧
    (Machine.runUntilTerminate schedAlways 10 0 c2Machine).state.pc = 0 ∧
    (Machine.runUntilTerminate schedNever 10 0 c2Machine).state.memory 0 = 2 ∧
    (Machine.runUntilTerminate schedNever 10 0 c2Machine).state.pc = 4 :=
  ⟨rfl, by decide, by decide, by decide, by decide⟩

set_option maxHeartbeats 1600000 in
/-- C2 (amended): executing any instruction other than opcodes 3 and 4 is
independent of the sigterm value, and such a step can neither block nor
raise `ResourceUnavailable` — only the input/output instructions touch the
cancellation machinery at instruction level.  However, `run_until_terminate`
itself consults the sigterm token before every instruction: whenever the
token is set at the start of an iteration the loop returns immediately,
whatever the current opcode. -/
theorem C2_amended_thm (s : Machine) (b₁ b₂ : Bool)
    (h3 : s.opcode ≠ 3) (h4 : s.opcode ≠ 4) :
    s.executeNext b₁ = s.executeNext b₂ ∧
    (∀ s₁, s.executeNext b₁ ≠ .blocked s₁) ∧
    (∀ s₁, s.executeNext b₁ ≠ .unavailable s₁) ∧
    (∀ sched fuel i s₀, sched i = true →
      Machine.runUntilTerminate sched (fuel + 1) i s₀ = .done s₀) := by
  refine ⟨?_, ?_, ?_, ?_⟩
  · unfold Machine.executeNext
    split_ifs <;> rfl
  · intro s₁
    unfold Machine.executeNext
    split_ifs
    · exact (executeBinOp_not_blocking _ _ _).1
    · exact (executeBinOp_not_blocking _ _ _).1
    · exact (execute05_not_blocking _ _).1
    · exact (execute06_not_blocking _ _).1
    · exact (executeBinOp_not_blocking _ _ _).1
    · exact (executeBinOp_not_blocking _ _ _).1
    · exact (execute09_not_blocking _ _).1
    · simp [Machine.execute99]
    · simp
  · intro s₁
    unfold Machine.executeNext
    split_ifs
    · exact (executeBinOp_not_blocking _ _ _).2
    · exact (executeBinOp_not_blocking _ _ _).2
    · exact (execute05_not_blocking _ _).2
    · exact (execute06_not_blocking _ _).2
    · exact (executeBinOp_not_blocking _ _ _).2
    · exact (executeBinOp_not_blocking _ _ _).2
    · exact (execute09_not_blocking _ _).2
    · simp [Machine.execute99]
    · simp
  · intro sched fuel i s₀ hi
    rw [Machine.runUntilTerminate]
    rw [hi]
    simp

/-- Witness for `C2_amended_thm` at `c2Machine` (current opcode 1). -/
theorem C2_amended_witness :
    c2Machine.executeNext true = c2Machine.executeNext false ∧
    Machine.runUntilTerminate schedAlways 1 0 c2Machine = .done c2Machine := by
  have h := C2_amended_thm c2Machine true false (by decide) (by decide)
  exact ⟨h.1, h.2.2.2 schedAlways 0 0 c2Machine rfl⟩

/-!
### C4 — exhausted queued input

The spec claims end-of-input is a failure that is surfaced to the host, so
that `run_until_terminate` does not return as on normal termination.  In the
source, `QueuePort.read_int` with an exhausted queue and a finite retry
bound raises `ResourceUnavailable` — but `run_until_terminate` catches that
exception exactly like `MachineTerminated` and returns normally.
-/

/-- An exhausted queued input source with retry bound 0. -/
def c4Port : QueuePort := ⟨[], some 0, false⟩

/-- `[3, 0, 99]`: requests input immediately; its input queue is empty. -/
def c4Machine : Machine := Machine.new [3, 0, 99] (some c4Port) none

/-- `[99]`: terminates normally at once, for comparison. -/
def c4HaltMachine : Machine := Machine.new [99] none none

/-- C4 is false on the code as regards surfacing: when the queued input is
exhausted, `run_until_terminate` returns through the same normal-return path
as opcode-99 termination (`isDone` in the model; the Python method returns
`None` in both cases, having caught `ResourceUnavailable`).  The run did
abort — `pc` is still 0 and no input was recorded — but nothing is surfaced
at the call boundary: the outcome constructor is identical to the one for
the normally terminating machine `[99]`. -/
theorem C4_counterexample :
    (Machine.runUntilTerminate schedNever 10 0 c4Machine).isDone = true ∧
    (Machine.runUntilTerminate schedNever 10 0 c4Machine).state.pc = 0 ∧
    (Machine.runUntilTerminate schedNever 10 0 c4Machine).state.inputTape = [] ∧
    (Machine.runUntilTerminate schedNever 10 0 c4HaltMachine).isDone = true :=
  ⟨by decide, by decide, by decide, by decide⟩

/-- C4 (amended): when a queued input source with a finite retry bound is
exhausted and the program requests input, the read raises
`ResourceUnavailable`, which aborts the run mid-instruction — the
destination is not written, the input tape is not extended and `pc` does not
advance, and the port's starving flag is left set — but
`run_until_terminate` catches the exception and returns normally, exactly as
it does for opcode-99 termination; the abort is observable only in the
machine state. -/
theorem C4_amended_thm (s : Machine) (p : QueuePort) (r : Nat)
    (hport : s.inputPort = some p) (hq : p.queue = []) (hr : p.retries = some r)
    (hop : s.opcode = 3) :
    s.executeNext false =
      .unavailable { s with inputPort := some { p with starving := true } } ∧
    (∀ sched fuel i, sched i = false →
      Machine.runUntilTerminate sched (fuel + 1) i s =
        .done { s with inputPort := some { p with starving := true } }) := by
  have hstep : s.executeNext false =
      .unavailable { s with inputPort := some { p with starving := true } } := by
    simp [Machine.executeNext, hop, Machine.execute03, hport, QueuePort.readInt, hq, hr]
  refine ⟨hstep, ?_⟩
  intro sched fuel i hi
  rw [Machine.runUntilTerminate, hi, hstep]
  rfl

/-- Witness for `C4_amended_thm` at the concrete machine `c4Machine`. -/
theorem C4_amended_witness :
    c4Machine.executeNext false =
      .unavailable { c4Machine with inputPort := some { c4Port with starving := true } } ∧
    Machine.runUntilTerminate schedNever 1 0 c4Machine =
      .done { c4Machine with inputPort := some { c4Port with starving := true } } := by
  have h := C4_amended_thm c4Machine c4Port 0 rfl rfl rfl (by decide)
  exact ⟨h.1, h.2 schedNever 0 0 rfl⟩

/-!
### C5 — parameter load/store semantics
-/

/-- `[11101, 2, 3, 0, 99]`: an add whose three parameters are all immediate,
so its destination parameter is immediate and the store fails. -/
def c5Machine : Machine := Machine.new [11101, 2, 3, 0, 99] none none

/-- C5: reading a parameter yields `memory[raw_word]` in position mode (0),
`raw_word` itself in immediate mode (1), and
`memory[relative_base + raw_word]` in relative mode (2); writing stores at
`raw_word` in position mode and at `relative_base + raw_word` in relative
mode; writing through an immediate-mode parameter fails (the
`invalid mode` `RuntimeError`, the spec's `InvalidWrite`), and any such
instruction-level failure aborts the run: `run_until_terminate` propagates
it to the caller instead of returning normally. -/
theorem C5_param_semantics (s : Machine) (p : Parameter) (v : Int) :
    (p.mode = 0 → s.loadValue p = .ok (s.memory p.number) ∧
      s.storeValue p v = .ok (s.memWrite p.number v)) ∧
    (p.mode = 1 → s.loadValue p = .ok p.number ∧
      s.storeValue p v = .error (.invalidMode 1)) ∧
    (p.mode = 2 → s.loadValue p = .ok (s.memory (p.number + s.relativeBase)) ∧
      s.storeValue p v = .ok (s.memWrite (p.number + s.relativeBase) v)) ∧
    (∀ e s₁ sched fuel i, sched i = false → s.executeNext false = .fail e s₁ →
      Machine.runUntilTerminate sched (fuel + 1) i s = .failed e s₁) := by
  refine ⟨?_, ?_, ?_, ?_⟩
  · intro h
    constructor <;> simp [Machine.loadValue, Machine.storeValue, h]
  · intro h
    constructor <;> simp [Machine.loadValue, Machine.storeValue, h]
  · intro h
    constructor <;> simp [Machine.loadValue, Machine.storeValue, h]
  · intro e s₁ sched fuel i hi hstep
    rw [Machine.runUntilTerminate, hi, hstep]
    rfl

/-- Witness for `C5_param_semantics`: loads in the three modes on
`c5Machine`, the failing immediate-mode store, and the aborting run of the
all-immediate add program. -/
theorem C5_witness :
    c5Machine.loadValue ⟨1, 0⟩ = .ok (c5Machine.memory 1) ∧
    c5Machine.loadValue ⟨1, 1⟩ = .ok 1 ∧
    c5Machine.loadValue ⟨1, 2⟩ = .ok (c5Machine.memory (1 + c5Machine.relativeBase)) ∧
    c5Machine.storeValue ⟨1, 1⟩ 7 = .error (.invalidMode 1) ∧
    Machine.runUntilTerminate schedNever 1 0 c5Machine =
      .failed (.invalidMode 1) c5Machine := by
  have h0 := C5_param_semantics c5Machine ⟨1, 0⟩ 7
  have h1 := C5_param_semantics c5Machine ⟨1, 1⟩ 7
  have h2 := C5_param_semantics c5Machine ⟨1, 2⟩ 7
  exact ⟨(h0.1 rfl).1, (h1.2.1 rfl).1, (h2.2.2.1 rfl).1, (h1.2.1 rfl).2,
    h0.2.2.2 (.invalidMode 1) c5Machine schedNever 0 0 rfl rfl⟩

/-!
### C9 — halting is final and idempotent
-/

/-- C9: a machine whose current instruction is a halt (opcode 99 — exactly
the state in which a 99-terminated run ends, since `execute_99` raises
`MachineTerminated` without mutating anything) is a fixed point of
`run_until_terminate`: the step outcome is `terminated` with the state
untouched, and any further run returns the very same state — memory,
program counter, relative base and both tapes unchanged, so the output tape
is final. -/
theorem C9_halt_idempotent (sched : Nat → Bool) (fuel i : Nat) (s : Machine)
    (hfuel : 0 < fuel) (hop : s.opcode = 99) :
    s.executeNext (sched i) = .terminated s ∧
    Machine.runUntilTerminate sched fuel i s = .done s := by
  obtain ⟨f, rfl⟩ : ∃ f, fuel = f + 1 := ⟨fuel - 1, by omega⟩
  have hstep : ∀ b : Bool, s.executeNext b = .terminated s := by
    intro b
    simp [Machine.executeNext, hop, Machine.execute99]
  refine ⟨hstep _, ?_⟩
  rw [Machine.runUntilTerminate]
  rcases Bool.eq_false_or_eq_true (sched i) with h | h <;>
    · rw [h, hstep]
      rfl

/-- Witness for `C9_halt_idempotent` at the halted machine `[99]`. -/
theorem C9_witness :
    c4HaltMachine.executeNext (schedNever 0) = .terminated c4HaltMachine ∧
    Machine.runUntilTerminate schedNever 5 0 c4HaltMachine = .done c4HaltMachine :=
  C9_halt_idempotent schedNever 5 0 c4HaltMachine (by decide) (by decide)

/-!
### C10 — unplugged ports
-/

/-- `[3, 0, 99]` with no input port plugged. -/
def c10InMachine : Machine := Machine.new [3, 0, 99] none none

/-- `[4, 0, 99]` with no output port plugged. -/
def c10OutMachine : Machine := Machine.new [4, 0, 99] none none

/-- C10: executing opcode 3 on a machine whose `input_port` is `None` raises
the "input port is not plugged" `RuntimeError` (no blocking, no state
change), and that error propagates out of `run_until_terminate`;
symmetrically, opcode 4 with `output_port = None` raises
"output port is not plugged". -/
theorem C10_unplugged_ports (s : Machine) (b : Bool) :
    (s.opcode = 3 → s.inputPort = none →
      s.executeNext b = .fail .inputNotPlugged s ∧
      ∀ sched fuel i, sched i = false →
        Machine.runUntilTerminate sched (fuel + 1) i s =
          .failed .inputNotPlugged s) ∧
    (s.opcode = 4 → s.outputPort = none →
      s.executeNext b = .fail .outputNotPlugged s ∧
      ∀ sched fuel i, sched i = false →
        Machine.runUntilTerminate sched (fuel + 1) i s =
          .failed .outputNotPlugged s) := by
  constructor
  · intro hop hport
    have hstep : ∀ b' : Bool, s.executeNext b' = .fail .inputNotPlugged s := by
      intro b'
      simp [Machine.executeNext, hop, Machine.execute03, hport]
    refine ⟨hstep b, ?_⟩
    intro sched fuel i hi
    rw [Machine.runUntilTerminate, hi, hstep]
    rfl
  · intro hop hport
    have hstep : ∀ b' : Bool, s.executeNext b' = .fail .outputNotPlugged s := by
      intro b'
      simp [Machine.executeNext, hop, Machine.execute04, hport]
    refine ⟨hstep b, ?_⟩
    intro sched fuel i hi
    rw [Machine.runUntilTerminate, hi, hstep]
    rfl

/-- Witness for `C10_unplugged_ports` at `[3, 0, 99]` and `[4, 0, 99]`
with no ports plugged. -/
theorem C10_witness :
    c10InMachine.executeNext false = .fail .inputNotPlugged c10InMachine ∧
    Machine.runUntilTerminate schedNever 1 0 c10InMachine =
      .failed .inputNotPlugged c10InMachine ∧
    c10OutMachine.executeNext false = .fail .outputNotPlugged c10OutMachine ∧
    Machine.runUntilTerminate schedNever 1 0 c10OutMachine =
      .failed .outputNotPlugged c10OutMachine := by
  have hin := (C10_unplugged_ports c10InMachine false).1 (by decide) rfl
  have hout := (C10_unplugged_ports c10OutMachine false).2 (by decide) rfl
  exact ⟨hin.1, hin.2 schedNever 0 0 rfl, hout.1, hout.2 schedNever 0 0 rfl⟩

/-!
Helper lemmas about the bridge map.
-/

theorem lookupAddr_updatePairs (l : List (Int × BridgeAdapter)) (a d : Int)
    (f : BridgeAdapter → BridgeAdapter) :
    lookupAddr d (updatePairs a f l) =
      if d = a then (lookupAddr d l).map f else lookupAddr d l := by
  induction l with
  | nil =>
    simp [updatePairs, lookupAddr]
  | cons p t ih =>
    obtain ⟨k, b⟩ := p
    rw [updatePairs]
    by_cases hk : k = a
    · rw [if_pos hk]
      rw [lookupAddr]
      by_cases hd : d = k
      · rw [if_pos hd, if_pos (hd.trans hk), lookupAddr, if_pos hd]
        rfl
      · rw [if_neg hd, ih, lookupAddr, if_neg hd]
    · rw [if_neg hk]
      rw [lookupAddr]
      by_cases hd : d = k
      · have hda : ¬(d = a) := fun h => hk (hd.symm.trans h)
        rw [if_pos hd, if_neg hda, lookupAddr, if_pos hd]
      · rw [if_neg hd, ih, lookupAddr, if_neg hd]

theorem lookupBridge_updateBridge (sw : CentralSwitch) (a d : Int)
    (f : BridgeAdapter → BridgeAdapter) :
    (sw.updateBridge a f).lookupBridge d =
      if d = a then (sw.lookupBridge d).map f else sw.lookupBridge d :=
  lookupAddr_updatePairs sw.bridges a d f

@[simp]
theorem updateBridge_natAddr (sw : CentralSwitch) (a : Int)
    (f : BridgeAdapter → BridgeAdapter) :
    (sw.updateBridge a f).natAddr = sw.natAddr := rfl

@[simp]
theorem updateBridge_natFirstReceived (sw : CentralSwitch) (a : Int)
    (f : BridgeAdapter → BridgeAdapter) :
    (sw.updateBridge a f).natFirstReceived = sw.natFirstReceived := rfl

@[simp]
theorem updateBridge_natReceivedMsgs (sw : CentralSwitch) (a : Int)
    (f : BridgeAdapter → BridgeAdapter) :
    (sw.updateBridge a f).natReceivedMsgs = sw.natReceivedMsgs := rfl

@[simp]
theorem updateBridge_natSentMsgs (sw : CentralSwitch) (a : Int)
    (f : BridgeAdapter → BridgeAdapter) :
    (sw.updateBridge a f).natSentMsgs = sw.natSentMsgs := rfl

theorem deliverToMachine_eq (sw : CentralSwitch) (addr x y : Int)
    (h : (sw.lookupBridge addr).isSome = true) :
    sw.deliverToMachine addr x y =
      some (sw.updateBridge addr fun b =>
        { b with inQueue := b.inQueue ++ [x, y], inStarving := false }) := by
  unfold CentralSwitch.deliverToMachine
  cases hl : sw.lookupBridge addr with
  | none => rw [hl] at h; cases h
  | some b => simp [hl]

/-!
### C3 — the idleness check

The claim (and the docstring of `network_idle` itself: "... AND there is no
message waiting in any queue") requires idleness to include emptiness of
every bridge input FIFO.  The implementation checks only
`adapter.in_starving.is_set()` and never inspects the FIFOs, so a switch in
which some bridge is flagged starving while its FIFO still holds words — the
state produced when a delivery races the flag-setting read, which is
possible because `BridgeAdapter.read_int` tests the queue outside the switch
mutex — is reported idle, and the NAT then proceeds to inject a packet.
-/

/-- A bridge flagged starving whose input FIFO still holds a word. -/
def c3Bridge : BridgeAdapter :=
  { addr := 0, inQueue := [7], outBuffer := [], inStarving := true }

/-- A switch whose single bridge is `c3Bridge` and whose NAT has received
one packet. -/
def c3Switch : CentralSwitch :=
  { natAddr := 255
    bridges := [(0, c3Bridge)]
    natFirstReceived := true
    natReceivedMsgs := [⟨1, 2⟩]
    natSentMsgs := [] }

/-- C3 fails on the code at this input: every starving flag is set but
bridge 0's input FIFO still holds `[7]`, yet `network_idle` reports the
network idle, and the NAT worker step proceeds to deliver the packet
`(1, 2)` to address 0 on top of the still-undelivered word. -/
theorem C3_code_eval :
    c3Switch.networkIdle = true ∧
    c3Switch.lookupBridge 0 = some c3Bridge ∧
    c3Bridge.inQueue = [7] ∧
    c3Switch.natStep = .sent
      { natAddr := 255
        bridges := [(0, { addr := 0, inQueue := [7, 1, 2], outBuffer := [], inStarving := false })]
        natFirstReceived := true
        natReceivedMsgs := [⟨1, 2⟩]
        natSentMsgs := [⟨1, 2⟩] } := by
  refine ⟨rfl, rfl, rfl, by decide⟩

/-!
### C6 — the NAT repeat condition
-/

/-- C6: when the network is reported idle and the NAT inbox is non-empty
with most recent packet `recent`, the NAT worker step terminates with a
repeat exactly when the last packet it sent has the same `y`, and it stops
before the send — the returned switch is unchanged, so the repeated packet
is never delivered and never recorded; otherwise (nothing sent yet, or a
different `y`) it records `recent` in `nat_sent_msgs` and delivers
`(recent.x, recent.y)` to the bridge of address 0. -/
theorem C6_nat_repeat (sw : CentralSwitch) (recent : Vec)
    (hidle : sw.networkIdle = true)
    (hrecv : sw.natReceivedMsgs.getLast? = some recent) :
    (∀ lastSent, sw.natSentMsgs.getLast? = some lastSent → lastSent.y = recent.y →
      sw.natStep = .repeatFound sw) ∧
    ((sw.lookupBridge 0).isSome = true →
      (sw.natSentMsgs.getLast? = none ∨
        (∃ lastSent, sw.natSentMsgs.getLast? = some lastSent ∧ lastSent.y ≠ recent.y)) →
      sw.natStep = .sent
        (({ sw with natSentMsgs := sw.natSentMsgs ++ [recent] }).updateBridge 0 fun b =>
          { b with inQueue := b.inQueue ++ [recent.x, recent.y], inStarving := false })) := by
  constructor
  · intro lastSent hlast hy
    simp [CentralSwitch.natStep, hidle, hrecv, hlast, hy]
  · intro hb hcond
    have hb' : (({ sw with natSentMsgs := sw.natSentMsgs ++ [recent] }
        : CentralSwitch).lookupBridge 0).isSome = true := hb
    rcases hcond with hnone | ⟨lastSent, hlast, hy⟩
    · simp [CentralSwitch.natStep, hidle, hrecv, hnone, CentralSwitch.natSend,
        deliverToMachine_eq _ _ _ _ hb']
    · simp [CentralSwitch.natStep, hidle, hrecv, hlast, hy, CentralSwitch.natSend,
        deliverToMachine_eq _ _ _ _ hb']

/-- A switch that is idle, has received `(4, 9)`, and last sent `(3, 9)`:
the `y` repeats. -/
def c6RepeatSwitch : CentralSwitch :=
  { natAddr := 255
    bridges := [(0, { addr := 0, inQueue := [], outBuffer := [], inStarving := true })]
    natFirstReceived := true
    natReceivedMsgs := [⟨4, 9⟩]
    natSentMsgs := [⟨3, 9⟩] }

/-- The same switch with nothing sent yet. -/
def c6SendSwitch : CentralSwitch :=
  { c6RepeatSwitch with natSentMsgs := [] }

/-- Witness for `C6_nat_repeat`: on `c6RepeatSwitch` the step stops with
`repeatFound` and the switch unchanged; on `c6SendSwitch` it sends `(4, 9)`
to address 0. -/
theorem C6_witness :
    c6RepeatSwitch.natStep = .repeatFound c6RepeatSwitch ∧
    c6SendSwitch.natStep = .sent
      (({ c6SendSwitch with natSentMsgs := [⟨4, 9⟩] }).updateBridge 0 fun b =>
        { b with inQueue := b.inQueue ++ [4, 9], inStarving := false }) := by
  have h1 := (C6_nat_repeat c6RepeatSwitch ⟨4, 9⟩ (by decide) (by decide)).1
    ⟨3, 9⟩ (by decide) rfl
  have h2 := (C6_nat_repeat c6SendSwitch ⟨4, 9⟩ (by decide) (by decide)).2
    (by decide) (Or.inl (by decide))
  exact ⟨h1, h2⟩

/-!
### C7 — bridge input read
-/

/-- C7: a bridge input read with a non-empty FIFO pops and returns the front
word; with an empty FIFO it sets the starving flag and returns `-1` (the
sleep is abstracted away).  The read is total — it has no failure
outcome. -/
theorem C7_bridge_read (b : BridgeAdapter) :
    (∀ v rest, b.inQueue = v :: rest →
      b.readInt = (v, { b with inQueue := rest })) ∧
    (b.inQueue = [] →
      b.readInt = (-1, { b with inStarving := true })) := by
  constructor
  · intro v rest h
    simp [BridgeAdapter.readInt, h]
  · intro h
    simp [BridgeAdapter.readInt, h]

/-- A bridge whose FIFO holds its seeded address. -/
def c7FullBridge : BridgeAdapter := BridgeAdapter.new 3

/-- A bridge with an empty FIFO. -/
def c7EmptyBridge : BridgeAdapter :=
  { addr := 4, inQueue := [], outBuffer := [], inStarving := false }

/-- Witness for `C7_bridge_read` at a non-empty and at an empty bridge. -/
theorem C7_witness :
    c7FullBridge.readInt = (3, { c7FullBridge with inQueue := [] }) ∧
    c7EmptyBridge.readInt = (-1, { c7EmptyBridge with inStarving := true }) :=
  ⟨(C7_bridge_read c7FullBridge).1 3 [] rfl, (C7_bridge_read c7EmptyBridge).2 rfl⟩

/-!
### C8 — bridge output framing and dispatch
-/

/-- C8: every bridge output write appends to the bridge's 3-word framing
buffer; only a write that brings the buffer to exactly three words
dispatches it as `(dest_addr, x, y)` and clears it.  A dispatched message
whose destination is the NAT address lands as `(x, y)` in the NAT inbox;
any other destination gets `x` then `y` appended to its bridge's input FIFO
with the starving flag cleared.  In both cases the destination word is
consumed by the switch and appears in no FIFO. -/
theorem C8_bridge_write (sw : CentralSwitch) (addr v : Int) (b : BridgeAdapter)
    (hb : sw.lookupBridge addr = some b) :
    (b.outBuffer.length + 1 ≠ 3 →
      sw.bridgeWriteInt addr v =
        some (sw.updateBridge addr fun x =>
          { x with outBuffer := b.outBuffer ++ [v] })) ∧
    (∀ d xw, b.outBuffer = [d, xw] → d = sw.natAddr →
      sw.bridgeWriteInt addr v =
        some (({ sw.updateBridge addr fun x => { x with outBuffer := [d, xw, v] } with
                  natReceivedMsgs := sw.natReceivedMsgs ++ [Vec.mk xw v]
                  natFirstReceived := true }).updateBridge addr fun x =>
          { x with outBuffer := [] })) ∧
    (∀ d xw bd, b.outBuffer = [d, xw] → d ≠ sw.natAddr → sw.lookupBridge d = some bd →
      sw.bridgeWriteInt addr v =
        some ((((sw.updateBridge addr fun x => { x with outBuffer := [d, xw, v] }).updateBridge d
            fun x => { x with inQueue := x.inQueue ++ [xw, v], inStarving := false
                     }).updateBridge addr fun x =>
          { x with outBuffer := [] }))) := by
  refine ⟨?_, ?_, ?_⟩
  · intro hlen
    have hlen' : ¬(b.outBuffer.length = 2) := by omega
    simp [CentralSwitch.bridgeWriteInt, hb, hlen']
  · intro d xw hbuf hnat
    subst hnat
    simp [CentralSwitch.bridgeWriteInt, hb, hbuf, CentralSwitch.dispatchBuffer]
  · intro d xw bd hbuf hnat hbd
    have hbd' : (((sw.updateBridge addr fun x =>
        { x with outBuffer := [d, xw, v] }) : CentralSwitch).lookupBridge d).isSome = true := by
      rw [lookupBridge_updateBridge]
      split <;> simp [hbd]
    simp [CentralSwitch.bridgeWriteInt, hb, hbuf, CentralSwitch.dispatchBuffer, hnat,
      deliverToMachine_eq _ _ _ _ hbd']

/-- A switch with three bridges: bridge 2 has two words framed already,
bridge 5 is fresh, and bridge 7 has a NAT-bound message framed. -/
def c8Switch : CentralSwitch :=
  { natAddr := 255
    bridges := [(2, { addr := 2, inQueue := [2], outBuffer := [5, 10], inStarving := false }),
                (5, BridgeAdapter.new 5),
                (7, { addr := 7, inQueue := [7], outBuffer := [255, 10], inStarving := false })]
    natFirstReceived := false
    natReceivedMsgs := []
    natSentMsgs := [] }

/-- Witness for `C8_bridge_write` on `c8Switch`: a first write only buffers;
a third write on bridge 2 delivers `(10, 20)` to bridge 5's FIFO with the
destination word 5 consumed; a third write on bridge 7 lands `(10, 20)` in
the NAT inbox. -/
theorem C8_witness :
    c8Switch.bridgeWriteInt 5 1 = some
      { natAddr := 255
        bridges := [(2, { addr := 2, inQueue := [2], outBuffer := [5, 10], inStarving := false }),
                    (5, { addr := 5, inQueue := [5], outBuffer := [1], inStarving := false }),
                    (7, { addr := 7, inQueue := [7], outBuffer := [255, 10], inStarving := false })]
        natFirstReceived := false
        natReceivedMsgs := []
        natSentMsgs := [] } ∧
    c8Switch.bridgeWriteInt 2 20 = some
      { natAddr := 255
        bridges := [(2, { addr := 2, inQueue := [2], outBuffer := [], inStarving := false }),
                    (5, { addr := 5, inQueue := [5, 10, 20], outBuffer := [], inStarving := false }),
                    (7, { addr := 7, inQueue := [7], outBuffer := [255, 10], inStarving := false })]
        natFirstReceived := false
        natReceivedMsgs := []
        natSentMsgs := [] } ∧
    c8Switch.bridgeWriteInt 7 20 = some
      { natAddr := 255
        bridges := [(2, { addr := 2, inQueue := [2], outBuffer := [5, 10], inStarving := false }),
                    (5, { addr := 5, inQueue := [5], outBuffer := [], inStarving := false }),
                    (7, { addr := 7, inQueue := [7], outBuffer := [], inStarving := false })]
        natFirstReceived := true
        natReceivedMsgs := [⟨10, 20⟩]
        natSentMsgs := [] } := by
  have hA := (C8_bridge_write c8Switch 5 1 (BridgeAdapter.new 5) (by decide)).1 (by decide)
  have hB := (C8_bridge_write c8Switch 2 20
    { addr := 2, inQueue := [2], outBuffer := [5, 10], inStarving := false }
    (by decide)).2.2 5 10 (BridgeAdapter.new 5) rfl (by decide) (by decide)
  have hC := (C8_bridge_write c8Switch 7 20
    { addr := 7, inQueue := [7], outBuffer := [255, 10], inStarving := false }
    (by decide)).2.1 255 10 rfl (by decide)
  exact ⟨hA.trans (by decide), hB.trans (by decide), hC.trans (by decide)⟩

end Aoc2019
